import Mathlib

/-!
Verification of the type-conversion algebra, compatibility-checker ledger and
item store of the `ritual` binding generator.

The definitions below are a shallow embedding of
`src/ritual/src/rust_type.rs` and `src/ritual/src/database.rs`.
Rust `Vec` becomes `List`, `Option` becomes `Option`, fallible methods
(`Result<T>` with `bail!`) become `Except String T` carrying the literal
`bail!` message, and methods taking `&mut self` or building a new value from
`&self` become pure functions from the old state to the new state.
-/

/- ===================== rust_type.rs : data model ===================== -/

/-- `RustPath` (rust_type.rs): a Rust identifier, a vector of name parts.
The Rust constructors panic on an empty vector; the claims below never
depend on that validity check, so the embedding carries the raw list. -/
structure RustPath where
  parts : List String
deriving DecidableEq

/-- `RustPath::crate_name` (rust_type.rs): first part when there is more
than one part, nothing for a single-part (built-in) name. -/
def RustPath.crate_name (p : RustPath) : Option String :=
  if p.parts.length > 1 then some (p.parts.headD "") else none

/-- `RustPath::last` (rust_type.rs): last component of the name. -/
def RustPath.last (p : RustPath) : String :=
  p.parts.getLastD ""

/-- `RustToFfiTypeConversion` (rust_type.rs): conversion from the public
Rust API type to the corresponding FFI type (the ConversionDescriptor of
the spec). -/
inductive RustToFfiTypeConversion where
  | None
  | RefToPtr
  | OptionPtrWrapperToPtr
  | ValueToPtr
  | CppBoxToPtr
  | PtrWrapperToPtr
  | QFlagsToUInt
deriving DecidableEq

/-- `RustPointerLikeTypeKind` (rust_type.rs): raw pointer, or reference
with an optional lifetime. -/
inductive RustPointerLikeTypeKind where
  | Pointer
  | Reference (lifetime : Option String)
deriving DecidableEq

/-- `RustType` (rust_type.rs). The Rust code wraps the `Common` payload in
a separate struct `RustCommonType { path, generic_arguments }`; it is
inlined here as the two fields of the `Common` constructor because Lean
nested inductives cannot go through an auxiliary structure. -/
inductive RustType where
  | Unit
  | Common (path : RustPath) (generic_arguments : Option (List RustType))
  | FunctionPointer (return_type : RustType) (arguments : List RustType)
  | PointerLike (kind : RustPointerLikeTypeKind) (is_const : Bool) (target : RustType)

/-- `RustFinalType` (rust_type.rs): the (ffi type, api type, conversion)
triple of a completely processed type. -/
structure RustFinalType where
  ffi_type : RustType
  api_type : RustType
  api_to_ffi_conversion : RustToFfiTypeConversion

/-- `RustPointerLikeTypeKind::is_pointer` (rust_type.rs). -/
def RustPointerLikeTypeKind.is_pointer : RustPointerLikeTypeKind → Bool
  | .Pointer => true
  | _ => false

/-- `RustPointerLikeTypeKind::is_ref` (rust_type.rs). -/
def RustPointerLikeTypeKind.is_ref : RustPointerLikeTypeKind → Bool
  | .Reference _ => true
  | _ => false

/-- Statement helper: the type is a raw-pointer Indirection, i.e. a
`PointerLike` whose kind `is_pointer`.  Used to phrase the failure sides
of the conversion claims. -/
def RustType.is_raw_pointer : RustType → Bool
  | .PointerLike kind _ _ => kind.is_pointer
  | _ => false

/- ===================== rust_type.rs : operations ===================== -/

mutual

/-- `RustType::is_unsafe_argument` (rust_type.rs, lines 321-345): true if
this type is or contains a raw pointer. -/
def RustType.is_unsafe_argument : RustType → Bool
  | .Unit => false
  | .Common _ none => false
  | .Common _ (some args) => isUnsafeArgumentList args
  | .FunctionPointer return_type arguments =>
    return_type.is_unsafe_argument || isUnsafeArgumentList arguments
  | .PointerLike kind _ target => kind.is_pointer || target.is_unsafe_argument

/-- `args.iter().any(|arg| arg.is_unsafe_argument())` spelled out as a
mutually recursive helper so that the recursion through the nested lists
of `RustType` stays structural. -/
def isUnsafeArgumentList : List RustType → Bool
  | [] => false
  | a :: rest => a.is_unsafe_argument || isUnsafeArgumentList rest

end

/-- `RustType::ptr_to_ref` (rust_type.rs, lines 355-367): turn the
outermost raw-pointer indirection into a reference (no lifetime) with the
given constness; fails on a non-pointer. -/
def RustType.ptr_to_ref (t : RustType) (is_const1 : Bool) : Except String RustType :=
  match t with
  | .PointerLike kind _ target =>
    if kind.is_pointer then
      .ok (.PointerLike (.Reference none) is_const1 target)
    else
      .error "not a pointer type"
  | _ => .error "not a PointerLike type"

/-- `RustFinalType::ptr_to_ref` (rust_type.rs, lines 382-390): converts the
API type from pointer to reference and sets the conversion to `RefToPtr`.
The Rust method first rewrites the API type (propagating its error with
`?`) and only then rejects a non-`None` conversion. -/
def RustFinalType.ptr_to_ref (t : RustFinalType) (is_const1 : Bool) :
    Except String RustFinalType :=
  match t.api_type.ptr_to_ref is_const1 with
  | .error e => .error e
  | .ok api2 =>
    if t.api_to_ffi_conversion = RustToFfiTypeConversion.None then
      .ok { ffi_type := t.ffi_type
            api_type := api2
            api_to_ffi_conversion := RustToFfiTypeConversion.RefToPtr }
    else
      .error "rust_api_to_ffi_conversion is not None"

/-- `RustFinalType::ptr_to_value` (rust_type.rs, lines 394-409): converts
the API type from pointer to its pointee and sets the conversion to
`ValueToPtr`.  The error text for the non-`PointerLike` case is the
literal (misworded) message of the Rust source. -/
def RustFinalType.ptr_to_value (t : RustFinalType) : Except String RustFinalType :=
  match t.api_type with
  | .PointerLike kind _ target =>
    if kind.is_pointer then
      if t.api_to_ffi_conversion = RustToFfiTypeConversion.None then
        .ok { ffi_type := t.ffi_type
              api_type := target
              api_to_ffi_conversion := RustToFfiTypeConversion.ValueToPtr }
      else
        .error "rust_api_to_ffi_conversion is not None"
    else
      .error "not a pointer type"
  | _ => .error "not a RustType::Common"

/- ===================== rust_type.rs : caption ===================== -/

/-- Modelled from the spec: the "lowercase-with-separators form" of a name
segment.  The Rust code calls `to_snake_case` from
`ritual_common::string_utils::CaseOperations`, which is not under `src/`;
only the fact that the same pure function is applied on both sides of
claim C9 matters, so any concrete executable realisation works here. -/
def toSnakeCase (s : String) : String :=
  String.mk (s.data.foldl
    (fun acc c => if c.isUpper then acc ++ ['_', c.toLower] else acc ++ [c]) [])

/-- One step of the `good_parts` accumulation in `RustType::caption`
(rust_type.rs, lines 232-237): push the snake-case form of the part
unless it repeats the last pushed part. -/
def pushSnakePart (good_parts : List String) (part : String) : List String :=
  let snake_part := toSnakeCase part
  if good_parts.getLast? ≠ some snake_part then good_parts ++ [snake_part]
  else good_parts

/-- The context-stripping loop of `RustType::caption` (rust_type.rs,
lines 224-238): walk the path parts, dropping each part that still
matches the head of the remaining context; at the first mismatch the
remaining context is emptied and every further part is pushed through
`pushSnakePart`. -/
def captionGoodParts : List String → List String → List String → List String
  | [], _, good_parts => good_parts
  | part :: parts, c :: cs, good_parts =>
    if part = c then captionGoodParts parts cs good_parts
    else captionGoodParts parts [] (pushSnakePart good_parts part)
  | part :: parts, [], good_parts => captionGoodParts parts [] (pushSnakePart good_parts part)

mutual

/-- `RustType::caption` (rust_type.rs, lines 200-256): the alphanumeric
description of a type used for name disambiguation.  The Rust method
returns `Result<String>` but has no failing branch of its own (the only
`?`s propagate recursive calls), so it is embedded as a total function. -/
def RustType.caption : RustType → RustPath → String
  | .Unit, _ => "unit"
  | .PointerLike kind is_const target, context =>
    let const_text := if is_const then "_const" else ""
    let kind_text :=
      match kind with
      | .Pointer => "_ptr"
      | .Reference _ => "_ref"
    target.caption context ++ const_text ++ kind_text
  | .Common path generic_arguments, context =>
    let name :=
      if path.parts.length = 1 then
        toSnakeCase (path.parts.headD "")
      else if path.crate_name = some "std" then
        toSnakeCase path.last
      else
        let good_parts := captionGoodParts path.parts context.parts []
        if good_parts = [] then path.last
        else String.intercalate "_" good_parts
    match generic_arguments with
    | none => name
    | some args => name ++ "_" ++ String.intercalate "_" (captionList args context)
  | .FunctionPointer _ _, _ => "fn"

/-- `args.iter().map_if_ok(|x| x.caption(context))` as a mutually
recursive helper, keeping the recursion through nested argument lists
structural. -/
def captionList : List RustType → RustPath → List String
  | [], _ => []
  | a :: rest, context => a.caption context :: captionList rest context

end

/- ============ spec-side caption used by claim C9 ============ -/

/-- Spec-side helper for claim C9: strip the path prefix shared with the
context, segment by segment, stopping at the first mismatch. -/
def stripSharedLead : List String → List String → List String
  | [], _ => []
  | p :: ps, [] => p :: ps
  | p :: ps, c :: cs => if p = c then stripSharedLead ps cs else p :: ps

/-- Spec-side helper for claim C9: collapse an immediately-repeated
segment, remembering the previously kept segment. -/
def collapseRepeatsAux (prev : String) : List String → List String
  | [] => []
  | a :: rest =>
    if a = prev then collapseRepeatsAux prev rest
    else a :: collapseRepeatsAux a rest

/-- Spec-side helper for claim C9: collapse immediately-repeated segments
of a list. -/
def collapseRepeats : List String → List String
  | [] => []
  | a :: rest => a :: collapseRepeatsAux a rest

mutual

/-- Spec-side caption for claim C9, following the spec sentence: for an
Indirection, caption the pointee then append a constness marker and a
pointer/reference marker; for a Named type in the built-in/standard
namespace, the lowercase form of its last segment, otherwise the segments
left after stripping the prefix shared with the context, lowercased,
joined with separators while collapsing an immediately-repeated segment,
falling back to the bare last segment when none remain, with nested
argument captions appended; for a FunctionSignature a fixed short label.
(The spec leaves the Unit label implicit; the code's "unit" is used.) -/
def captionSpec : RustType → RustPath → String
  | .Unit, _ => "unit"
  | .PointerLike kind is_const target, context =>
    captionSpec target context ++ (if is_const then "_const" else "") ++
      (if kind.is_pointer then "_ptr" else "_ref")
  | .Common path generic_arguments, context =>
    let name :=
      if path.parts.length = 1 ∨ path.crate_name = some "std" then
        toSnakeCase path.last
      else
        let collapsed :=
          collapseRepeats ((stripSharedLead path.parts context.parts).map toSnakeCase)
        if collapsed = [] then path.last
        else String.intercalate "_" collapsed
    match generic_arguments with
    | none => name
    | some args => name ++ "_" ++ String.intercalate "_" (captionSpecList args context)
  | .FunctionPointer _ _, _ => "fn"

/-- Spec-side captions of a list of nested type arguments. -/
def captionSpecList : List RustType → RustPath → List String
  | [], _ => []
  | a :: rest, context => captionSpec a context :: captionSpecList rest context

end

/- ============ spec-side characterisation used by claim C6 ============ -/

/-- Spec-side predicate for claim C6: the type is, or recursively
contains — through Indirection pointees, nested Named type arguments, or
FunctionSignature parameter and return types — a raw-pointer Indirection. -/
inductive ContainsRawPtr : RustType → Prop
  | ptr (is_const : Bool) (target : RustType) :
      ContainsRawPtr (.PointerLike .Pointer is_const target)
  | pointee (kind : RustPointerLikeTypeKind) (is_const : Bool) (t : RustType) :
      ContainsRawPtr t → ContainsRawPtr (.PointerLike kind is_const t)
  | genericArg (path : RustPath) (args : List RustType) (t : RustType) :
      t ∈ args → ContainsRawPtr t → ContainsRawPtr (.Common path (some args))
  | fnReturn (r : RustType) (args : List RustType) :
      ContainsRawPtr r → ContainsRawPtr (.FunctionPointer r args)
  | fnArg (r : RustType) (args : List RustType) (t : RustType) :
      t ∈ args → ContainsRawPtr t → ContainsRawPtr (.FunctionPointer r args)

theorem isUnsafeArgumentList_eq_any (l : List RustType) :
    isUnsafeArgumentList l = l.any RustType.is_unsafe_argument := by
  induction l with
  | nil => rfl
  | cons a rest ih => simp [isUnsafeArgumentList, ih]

theorem is_unsafe_iff_aux :
    ∀ (n : Nat) (t : RustType), sizeOf t ≤ n →
      (t.is_unsafe_argument = true ↔ ContainsRawPtr t) := by
  intro n
  induction n with
  | zero =>
    intro t h
    cases t <;> simp at h
  | succ n ih =>
    intro t h
    cases t with
    | Unit =>
      simp only [RustType.is_unsafe_argument]
      constructor
      · intro hc; cases hc
      · intro hc; cases hc
    | PointerLike kind is_const target =>
      have hsz : sizeOf target ≤ n := by
        cases kind <;> simp at h <;> omega
      rw [RustType.is_unsafe_argument]
      simp only [Bool.or_eq_true, ih target hsz]
      constructor
      · rintro (hk | hc)
        · cases kind with
          | Pointer => exact ContainsRawPtr.ptr _ _
          | Reference lt => simp [RustPointerLikeTypeKind.is_pointer] at hk
        · exact ContainsRawPtr.pointee _ _ _ hc
      · intro hc
        cases hc with
        | ptr => left; rfl
        | pointee _ _ _ hc => right; exact hc
    | FunctionPointer ret args =>
      have hr : sizeOf ret ≤ n := by simp at h; omega
      have hargs : ∀ a ∈ args, sizeOf a ≤ n := by
        intro a ha
        have := List.sizeOf_lt_of_mem ha
        simp at h; omega
      rw [RustType.is_unsafe_argument]
      simp only [Bool.or_eq_true, isUnsafeArgumentList_eq_any, List.any_eq_true]
      constructor
      · rintro (hc | ⟨a, ha, hu⟩)
        · exact ContainsRawPtr.fnReturn _ _ ((ih ret hr).1 hc)
        · exact ContainsRawPtr.fnArg _ _ _ ha ((ih a (hargs a ha)).1 hu)
      · intro hc
        cases hc with
        | fnReturn _ _ hc => left; exact (ih ret hr).2 hc
        | fnArg _ _ t ht hc => right; exact ⟨t, ht, (ih t (hargs t ht)).2 hc⟩
    | Common path gargs =>
      cases gargs with
      | none =>
        rw [RustType.is_unsafe_argument]
        constructor
        · intro hc; cases hc
        · intro hc; cases hc
      | some l =>
        have hargs : ∀ a ∈ l, sizeOf a ≤ n := by
          intro a ha
          have := List.sizeOf_lt_of_mem ha
          simp at h; omega
        rw [RustType.is_unsafe_argument]
        simp only [isUnsafeArgumentList_eq_any, List.any_eq_true]
        constructor
        · rintro ⟨a, ha, hu⟩
          exact ContainsRawPtr.genericArg _ _ _ ha ((ih a (hargs a ha)).1 hu)
        · intro hc
          cases hc with
          | genericArg _ _ t ht hc => exact ⟨t, ht, (ih t (hargs t ht)).2 hc⟩

/- ============ equivalence lemmas for claim C9 ============ -/

theorem captionGoodParts_nil_ctx (parts : List String) (good : List String) :
    captionGoodParts parts [] good = parts.foldl pushSnakePart good := by
  induction parts generalizing good with
  | nil => rfl
  | cons p ps ih => rw [captionGoodParts, List.foldl, ih]

theorem pushSnakePart_nil (p : String) : pushSnakePart [] p = [toSnakeCase p] := by
  simp [pushSnakePart]

theorem foldl_pushSnakePart (l : List String) :
    ∀ (good : List String) (x : String), good.getLast? = some x →
      l.foldl pushSnakePart good = good ++ collapseRepeatsAux x (l.map toSnakeCase) := by
  induction l with
  | nil => intro good x h; simp [collapseRepeatsAux]
  | cons a rest ih =>
    intro good x h
    rw [List.map, collapseRepeatsAux, List.foldl]
    by_cases hax : toSnakeCase a = x
    · have hp : pushSnakePart good a = good := by
        simp [pushSnakePart, h, hax]
      rw [hp, if_pos hax, ih good x h]
    · have hp : pushSnakePart good a = good ++ [toSnakeCase a] := by
        simp [pushSnakePart, h, Ne.symm hax]
      rw [hp, if_neg hax, ih (good ++ [toSnakeCase a]) (toSnakeCase a) (by simp)]
      simp

theorem captionGoodParts_eq (parts : List String) :
    ∀ ctx : List String,
      captionGoodParts parts ctx [] =
        collapseRepeats ((stripSharedLead parts ctx).map toSnakeCase) := by
  induction parts with
  | nil => intro ctx; cases ctx <;> rfl
  | cons p ps ih =>
    intro ctx
    have hbase :
        captionGoodParts ps [] (pushSnakePart [] p) =
          collapseRepeats ((p :: ps).map toSnakeCase) := by
      rw [pushSnakePart_nil, captionGoodParts_nil_ctx,
        foldl_pushSnakePart ps [toSnakeCase p] (toSnakeCase p) (by simp)]
      simp [collapseRepeats]
    cases ctx with
    | nil =>
      rw [captionGoodParts, hbase, stripSharedLead]
    | cons c cs =>
      by_cases hpc : p = c
      · rw [captionGoodParts, if_pos hpc, ih cs, stripSharedLead, if_pos hpc]
      · rw [captionGoodParts, if_neg hpc, hbase, stripSharedLead, if_neg hpc]

theorem caption_name_eq (path context : RustPath) :
    (if path.parts.length = 1 then toSnakeCase (path.parts.headD "")
     else if path.crate_name = some "std" then toSnakeCase path.last
     else if captionGoodParts path.parts context.parts [] = [] then path.last
     else String.intercalate "_" (captionGoodParts path.parts context.parts [])) =
    (if path.parts.length = 1 ∨ path.crate_name = some "std" then toSnakeCase path.last
     else if collapseRepeats ((stripSharedLead path.parts context.parts).map toSnakeCase) = []
       then path.last
     else String.intercalate "_"
       (collapseRepeats ((stripSharedLead path.parts context.parts).map toSnakeCase))) := by
  by_cases h1 : path.parts.length = 1
  · rw [if_pos h1, if_pos (Or.inl h1)]
    obtain ⟨a, ha⟩ := List.length_eq_one.mp h1
    simp [RustPath.last, ha]
  · by_cases h2 : path.crate_name = some "std"
    · rw [if_neg h1, if_pos h2, if_pos (Or.inr h2)]
    · rw [if_neg h1, if_neg h2, if_neg (not_or.mpr ⟨h1, h2⟩), captionGoodParts_eq]

theorem caption_eq_captionSpec_aux :
    ∀ (n : Nat) (t : RustType) (context : RustPath), sizeOf t ≤ n →
      t.caption context = captionSpec t context := by
  intro n
  induction n with
  | zero =>
    intro t c h
    cases t <;> simp at h
  | succ n ih =>
    intro t context h
    cases t with
    | Unit => rfl
    | FunctionPointer r args => rfl
    | PointerLike kind is_const target =>
      have hsz : sizeOf target ≤ n := by
        cases kind <;> simp at h <;> omega
      simp only [RustType.caption, captionSpec, ih target context hsz]
      cases kind <;> rfl
    | Common path gargs =>
      have hlist : ∀ l : List RustType, (∀ a ∈ l, sizeOf a ≤ n) →
          captionList l context = captionSpecList l context := by
        intro l
        induction l with
        | nil => intro _; rfl
        | cons a rest ihl =>
          intro hl
          rw [captionList, captionSpecList, ih a context (hl a (by simp)),
            ihl (fun b hb => hl b (by simp [hb]))]
      cases gargs with
      | none =>
        simp only [RustType.caption, captionSpec]
        exact caption_name_eq path context
      | some args =>
        have hargs : ∀ a ∈ args, sizeOf a ≤ n := by
          intro a ha
          have := List.sizeOf_lt_of_mem ha
          simp at h; omega
        simp only [RustType.caption, captionSpec]
        rw [caption_name_eq, hlist args hargs]

/- ===================== claims C1 - C4, C6 ===================== -/

/-- Claim C1: on a triple whose conversion descriptor is already
non-Identity (`api_to_ffi_conversion ≠ None`), both `ptr_to_ref` and
`ptr_to_value` fail with an error.  The Rust methods take `&self` and
build the result by cloning, so the input triple is never mutated by a
failed (or successful) call; the embedding is a pure function, which
makes that non-mutation intrinsic. -/
theorem claim_c1_nonidentity_conversion_fails (t : RustFinalType) (is_const1 : Bool)
    (h : t.api_to_ffi_conversion ≠ RustToFfiTypeConversion.None) :
    (∃ e, t.ptr_to_ref is_const1 = .error e) ∧
    (∃ e, t.ptr_to_value = .error e) := by
  constructor
  · rw [RustFinalType.ptr_to_ref]
    split
    · exact ⟨_, rfl⟩
    · rw [if_neg h]
      exact ⟨_, rfl⟩
  · rw [RustFinalType.ptr_to_value]
    cases ha : t.api_type with
    | PointerLike kind is_const target =>
      by_cases hk : kind.is_pointer = true
      · refine ⟨"rust_api_to_ffi_conversion is not None", ?_⟩
        simp [hk, h]
      · refine ⟨"not a pointer type", ?_⟩
        simp [hk]
    | Unit => exact ⟨_, rfl⟩
    | Common path gargs => exact ⟨_, rfl⟩
    | FunctionPointer r args => exact ⟨_, rfl⟩

theorem claim_c1_witness :
    ((RustFinalType.mk RustType.Unit
        (RustType.PointerLike RustPointerLikeTypeKind.Pointer false RustType.Unit)
        RustToFfiTypeConversion.RefToPtr).api_to_ffi_conversion ≠
          RustToFfiTypeConversion.None) ∧
    ((∃ e, (RustFinalType.mk RustType.Unit
        (RustType.PointerLike RustPointerLikeTypeKind.Pointer false RustType.Unit)
        RustToFfiTypeConversion.RefToPtr).ptr_to_ref true = .error e) ∧
     (∃ e, (RustFinalType.mk RustType.Unit
        (RustType.PointerLike RustPointerLikeTypeKind.Pointer false RustType.Unit)
        RustToFfiTypeConversion.RefToPtr).ptr_to_value = .error e)) :=
  ⟨by decide, claim_c1_nonidentity_conversion_fails _ true (by decide)⟩

/-- Claim C2: with an Identity descriptor and a raw-pointer surface type
over pointee `T`, `ptr_to_ref make_const` succeeds and yields the borrow
Indirection (Reference, no lifetime) with constness `make_const` over the
same `T`, descriptor `RefToPtr`, ffi type unchanged; when the surface
type is not a raw-pointer Indirection the call fails. -/
theorem claim_c2_ptr_to_ref_spec (t : RustFinalType) (make_const : Bool) :
    (∀ c0 T, t.api_to_ffi_conversion = RustToFfiTypeConversion.None →
        t.api_type = RustType.PointerLike RustPointerLikeTypeKind.Pointer c0 T →
        t.ptr_to_ref make_const =
          .ok { ffi_type := t.ffi_type
                api_type :=
                  RustType.PointerLike (RustPointerLikeTypeKind.Reference none) make_const T
                api_to_ffi_conversion := RustToFfiTypeConversion.RefToPtr }) ∧
    (t.api_type.is_raw_pointer = false →
        ∃ e, t.ptr_to_ref make_const = .error e) := by
  constructor
  · intro c0 T hconv hapi
    rw [RustFinalType.ptr_to_ref, hapi]
    simp [RustType.ptr_to_ref, RustPointerLikeTypeKind.is_pointer, hconv]
  · intro hnotptr
    rw [RustFinalType.ptr_to_ref]
    cases ha : t.api_type with
    | PointerLike kind is_const target =>
      have hk : kind.is_pointer = false := by
        rw [ha] at hnotptr
        simpa [RustType.is_raw_pointer] using hnotptr
      refine ⟨"not a pointer type", ?_⟩
      simp [RustType.ptr_to_ref, hk]
    | Unit => exact ⟨_, rfl⟩
    | Common path gargs => exact ⟨_, rfl⟩
    | FunctionPointer r args => exact ⟨_, rfl⟩

theorem claim_c2_witness :
    ((RustFinalType.mk RustType.Unit
        (RustType.PointerLike RustPointerLikeTypeKind.Pointer true RustType.Unit)
        RustToFfiTypeConversion.None).ptr_to_ref false =
      .ok (RustFinalType.mk RustType.Unit
        (RustType.PointerLike (RustPointerLikeTypeKind.Reference none) false RustType.Unit)
        RustToFfiTypeConversion.RefToPtr)) ∧
    (∃ e, (RustFinalType.mk RustType.Unit RustType.Unit
        RustToFfiTypeConversion.None).ptr_to_ref false = .error e) :=
  ⟨(claim_c2_ptr_to_ref_spec _ false).1 true RustType.Unit rfl rfl,
   (claim_c2_ptr_to_ref_spec _ false).2 rfl⟩

/-- Claim C3: with an Identity descriptor and a raw-pointer surface type
over pointee `T`, `ptr_to_value` succeeds and yields surface type exactly
`T` with descriptor `ValueToPtr` and ffi type unchanged; when the surface
type is not a raw-pointer Indirection the call fails. -/
theorem claim_c3_ptr_to_value_spec (t : RustFinalType) :
    (∀ c0 T, t.api_to_ffi_conversion = RustToFfiTypeConversion.None →
        t.api_type = RustType.PointerLike RustPointerLikeTypeKind.Pointer c0 T →
        t.ptr_to_value =
          .ok { ffi_type := t.ffi_type
                api_type := T
                api_to_ffi_conversion := RustToFfiTypeConversion.ValueToPtr }) ∧
    (t.api_type.is_raw_pointer = false →
        ∃ e, t.ptr_to_value = .error e) := by
  constructor
  · intro c0 T hconv hapi
    rw [RustFinalType.ptr_to_value, hapi]
    simp [RustPointerLikeTypeKind.is_pointer, hconv]
  · intro hnotptr
    rw [RustFinalType.ptr_to_value]
    cases ha : t.api_type with
    | PointerLike kind is_const target =>
      have hk : kind.is_pointer = false := by
        rw [ha] at hnotptr
        simpa [RustType.is_raw_pointer] using hnotptr
      refine ⟨"not a pointer type", ?_⟩
      simp [hk]
    | Unit => exact ⟨_, rfl⟩
    | Common path gargs => exact ⟨_, rfl⟩
    | FunctionPointer r args => exact ⟨_, rfl⟩

theorem claim_c3_witness :
    ((RustFinalType.mk RustType.Unit
        (RustType.PointerLike RustPointerLikeTypeKind.Pointer true RustType.Unit)
        RustToFfiTypeConversion.None).ptr_to_value =
      .ok (RustFinalType.mk RustType.Unit RustType.Unit
        RustToFfiTypeConversion.ValueToPtr)) ∧
    (∃ e, (RustFinalType.mk RustType.Unit RustType.Unit
        RustToFfiTypeConversion.None).ptr_to_value = .error e) :=
  ⟨(claim_c3_ptr_to_value_spec _).1 true RustType.Unit rfl rfl,
   (claim_c3_ptr_to_value_spec _).2 rfl⟩

/-- Claim C4: whatever the outcome, neither conversion ever alters the
`ffi_type` member: mapping the successful result to its `ffi_type` gives
the input's `ffi_type` (and a failed call returns no triple at all, while
the `&self` input is untouched — the embedding is pure). -/
theorem claim_c4_ffi_type_frame (t : RustFinalType) (is_const1 : Bool) :
    ((t.ptr_to_ref is_const1).map RustFinalType.ffi_type =
      (t.ptr_to_ref is_const1).map (fun _ => t.ffi_type)) ∧
    ((t.ptr_to_value).map RustFinalType.ffi_type =
      (t.ptr_to_value).map (fun _ => t.ffi_type)) := by
  constructor
  · rw [RustFinalType.ptr_to_ref]
    split
    · rfl
    · split
      · rfl
      · rfl
  · rw [RustFinalType.ptr_to_value]
    split
    · split
      · split
        · rfl
        · rfl
      · rfl
    · rfl

/-- Claim C6: `is_unsafe_argument` is true exactly on the types that are
or recursively contain a raw-pointer Indirection (through pointees,
nested generic arguments, or function-pointer parameter and return
types).  In particular a borrow Indirection is unsafe only through its
pointee, and any type free of raw pointers is safe. -/
theorem claim_c6_is_unsafe_iff_contains_raw_ptr (t : RustType) :
    t.is_unsafe_argument = true ↔ ContainsRawPtr t :=
  is_unsafe_iff_aux (sizeOf t) t (Nat.le_refl _)

/-- Claim C9: `caption` computes its label exactly as the spec's recursive
description states (pointee caption plus constness and pointer/reference
markers for an Indirection; lowercase last segment for a built-in or
`std` path; otherwise the snake-cased segments left after stripping the
context-shared prefix, joined while collapsing an immediately-repeated
segment, falling back to the bare last segment; argument captions
appended; a fixed "fn" label for function pointers).  `caption` is a pure
function of its two arguments, so identical inputs always give identical
output strings. -/
theorem claim_c9_caption_matches_spec (t : RustType) (context : RustPath) :
    t.caption context = captionSpec t context :=
  caption_eq_captionSpec_aux (sizeOf t) t context (Nat.le_refl _)

/- ===================== database.rs : checker ledger ===================== -/

/-- Modelled from the spec: the "platform target descriptor" half of an
Environment.  `ritual_common::target::Target` is not under `src/`; the
claims depend only on its decidable structural equality, so it is
modelled by the four components that `CppCheckerEnv::short_text`
displays. -/
structure Target where
  arch : String
  os : String
  family : String
  env : String
deriving DecidableEq

/-- `CppCheckerEnv` (database.rs, lines 22-26): one checked environment,
a platform target plus an optional C++ library version. -/
structure CppCheckerEnv where
  target : Target
  cpp_library_version : Option String
deriving DecidableEq

/-- `CppCheckerInfo` (database.rs, lines 67-71): one ledger entry, an
environment with an optional error message. -/
structure CppCheckerInfo where
  env : CppCheckerEnv
  error : Option String
deriving DecidableEq

/-- `CppCheckerInfoList` (database.rs, lines 73-76): the per-item
compatibility ledger. -/
structure CppCheckerInfoList where
  items : List CppCheckerInfo
deriving DecidableEq

/-- `CppCheckerAddResult` (database.rs, lines 78-82). -/
inductive CppCheckerAddResult where
  | Added
  | Changed (old : Option String)
  | Unchanged
deriving DecidableEq

/-- The body of `CppCheckerInfoList::add` (database.rs, lines 85-102) on
the underlying entry list.  `iter_mut().find(|i| &i.env == env)` visits
entries in order, so the first entry with a matching environment is the
one updated in place (its `error` field is overwritten, its `env` field
kept); without a match a new entry is appended at the end. -/
def addCheckerInfo (env : CppCheckerEnv) (error : Option String) :
    List CppCheckerInfo → List CppCheckerInfo × CppCheckerAddResult
  | [] => ([CppCheckerInfo.mk env error], .Added)
  | i :: rest =>
    if i.env = env then
      (CppCheckerInfo.mk i.env error :: rest,
        if i.error = error then .Unchanged else .Changed i.error)
    else
      let r := addCheckerInfo env error rest
      (i :: r.1, r.2)

/-- `CppCheckerInfoList::add` (database.rs, lines 85-102): record a check
result, returning the new ledger and the Added/Changed/Unchanged
outcome. -/
def CppCheckerInfoList.add (l : CppCheckerInfoList) (env : CppCheckerEnv)
    (error : Option String) : CppCheckerInfoList × CppCheckerAddResult :=
  (CppCheckerInfoList.mk (addCheckerInfo env error l.items).1,
    (addCheckerInfo env error l.items).2)

/-- `CppCheckerInfoList::any_passed` (database.rs, lines 104-106): true
iff some entry has no error. -/
def CppCheckerInfoList.any_passed (l : CppCheckerInfoList) : Bool :=
  l.items.any fun check => check.error.isNone

/- ============ lemmas for claim C5 ============ -/

theorem addCheckerInfo_unchanged (env : CppCheckerEnv) (error : Option String) :
    ∀ (items : List CppCheckerInfo),
      items.Pairwise (fun a b => a.env ≠ b.env) →
      ∀ i ∈ items, i.env = env → i.error = error →
      addCheckerInfo env error items = (items, .Unchanged) := by
  intro items
  induction items with
  | nil => intro _ i hi; cases hi
  | cons x rest ih =>
    intro hp i hi he her
    rcases List.mem_cons.mp hi with hix | hir
    · subst hix
      rw [addCheckerInfo, if_pos he, if_pos her, ← her]
    · have hxne : x.env ≠ env := by
        have := (List.pairwise_cons.mp hp).1 i hir
        rw [he] at this; exact this
      rw [addCheckerInfo, if_neg hxne,
        ih (List.pairwise_cons.mp hp).2 i hir he her]

theorem addCheckerInfo_changed (env : CppCheckerEnv) (error : Option String) :
    ∀ (pre : List CppCheckerInfo) (i : CppCheckerInfo) (post : List CppCheckerInfo),
      (pre ++ i :: post).Pairwise (fun a b => a.env ≠ b.env) →
      i.env = env → i.error ≠ error →
      addCheckerInfo env error (pre ++ i :: post) =
        (pre ++ CppCheckerInfo.mk i.env error :: post, .Changed i.error) := by
  intro pre
  induction pre with
  | nil =>
    intro i post hp he her
    simp only [List.nil_append]
    rw [addCheckerInfo, if_pos he, if_neg her]
  | cons x pre1 ih =>
    intro i post hp he her
    have hxne : x.env ≠ env := by
      have hmem : i ∈ pre1 ++ i :: post := by simp
      have := (List.pairwise_cons.mp hp).1 i hmem
      rw [he] at this; exact this
    simp only [List.cons_append]
    rw [addCheckerInfo, if_neg hxne,
      ih i post (List.pairwise_cons.mp hp).2 he her]

theorem addCheckerInfo_added (env : CppCheckerEnv) (error : Option String) :
    ∀ (items : List CppCheckerInfo), (∀ i ∈ items, i.env ≠ env) →
      addCheckerInfo env error items =
        (items ++ [CppCheckerInfo.mk env error], .Added) := by
  intro items
  induction items with
  | nil => intro _; rfl
  | cons x rest ih =>
    intro h
    rw [addCheckerInfo, if_neg (h x (by simp)),
      ih (fun i hi => h i (by simp [hi]))]
    rfl

theorem addCheckerInfo_env_mem (env : CppCheckerEnv) (error : Option String) :
    ∀ (items : List CppCheckerInfo) (b : CppCheckerInfo),
      b ∈ (addCheckerInfo env error items).1 →
      b.env = env ∨ b.env ∈ items.map CppCheckerInfo.env := by
  intro items
  induction items with
  | nil =>
    intro b hb
    simp [addCheckerInfo] at hb
    left; rw [hb]
  | cons x rest ih =>
    intro b hb
    by_cases hx : x.env = env
    · rw [addCheckerInfo, if_pos hx] at hb
      rcases List.mem_cons.mp hb with h1 | h2
      · left; rw [h1]; exact hx
      · right
        simp only [List.mem_map]
        exact ⟨b, by simp [h2], rfl⟩
    · rw [addCheckerInfo, if_neg hx] at hb
      simp only [List.mem_cons] at hb
      rcases hb with h1 | h2
      · right; simp [h1]
      · rcases ih b h2 with h | h
        · left; exact h
        · right; simp [h]

theorem addCheckerInfo_pairwise (env : CppCheckerEnv) (error : Option String) :
    ∀ (items : List CppCheckerInfo),
      items.Pairwise (fun a b => a.env ≠ b.env) →
      (addCheckerInfo env error items).1.Pairwise (fun a b => a.env ≠ b.env) := by
  intro items
  induction items with
  | nil =>
    intro _
    simp [addCheckerInfo]
  | cons x rest ih =>
    intro hp
    obtain ⟨hhead, htail⟩ := List.pairwise_cons.mp hp
    by_cases hx : x.env = env
    · rw [addCheckerInfo, if_pos hx]
      exact List.pairwise_cons.mpr ⟨fun b hb => hhead b hb, htail⟩
    · rw [addCheckerInfo, if_neg hx]
      show List.Pairwise _ (x :: (addCheckerInfo env error rest).1)
      refine List.pairwise_cons.mpr ⟨?_, ih htail⟩
      intro b hb
      rcases addCheckerInfo_env_mem env error rest b hb with h | h
      · rw [h]; exact hx
      · obtain ⟨a, ha, hae⟩ := List.mem_map.mp h
        rw [← hae]; exact hhead a ha

/-- Claim C5: `CppCheckerInfoList::add` on a ledger with at most one
entry per environment: if an entry for `env` with the same error exists
the call returns Unchanged and leaves the ledger unchanged; if one with a
different error exists it is replaced in place and Changed carries the
previous error; otherwise a new entry is appended and Added is returned;
and the at-most-one-entry-per-environment property is preserved. -/
theorem claim_c5_checker_record_spec (l : CppCheckerInfoList) (env : CppCheckerEnv)
    (error : Option String)
    (hd : l.items.Pairwise (fun a b => a.env ≠ b.env)) :
    (∀ i ∈ l.items, i.env = env → i.error = error →
        l.add env error = (l, CppCheckerAddResult.Unchanged)) ∧
    (∀ pre i post, l.items = pre ++ i :: post → i.env = env → i.error ≠ error →
        l.add env error =
          (CppCheckerInfoList.mk (pre ++ CppCheckerInfo.mk i.env error :: post),
            CppCheckerAddResult.Changed i.error)) ∧
    ((∀ i ∈ l.items, i.env ≠ env) →
        l.add env error =
          (CppCheckerInfoList.mk (l.items ++ [CppCheckerInfo.mk env error]),
            CppCheckerAddResult.Added)) ∧
    (l.add env error).1.items.Pairwise (fun a b => a.env ≠ b.env) := by
  refine ⟨?_, ?_, ?_, ?_⟩
  · intro i hi he her
    rw [CppCheckerInfoList.add, addCheckerInfo_unchanged env error l.items hd i hi he her]
  · intro pre i post heq he her
    rw [CppCheckerInfoList.add, heq,
      addCheckerInfo_changed env error pre i post (heq ▸ hd) he her]
  · intro h
    rw [CppCheckerInfoList.add, addCheckerInfo_added env error l.items h]
  · exact addCheckerInfo_pairwise env error l.items hd

theorem claim_c5_witness :
    (CppCheckerInfoList.mk
        [CppCheckerInfo.mk
          (CppCheckerEnv.mk (Target.mk "x86_64" "linux" "unix" "gnu") none) none]).add
      (CppCheckerEnv.mk (Target.mk "x86_64" "linux" "unix" "gnu") none)
      (some "link error") =
    (CppCheckerInfoList.mk
        [CppCheckerInfo.mk
          (CppCheckerEnv.mk (Target.mk "x86_64" "linux" "unix" "gnu") none)
          (some "link error")],
      CppCheckerAddResult.Changed none) :=
  (claim_c5_checker_record_spec _ _ _ (by simp)).2.1 [] _ [] rfl rfl (by simp)

/- ===================== database.rs : item store ===================== -/

/-- `DatabaseItemSource` (database.rs, lines 44-56): origin of a native
item.  `CppOriginLocation` (cpp_data.rs, not under `src/`) appears as the
opaque type parameter `Loc`; the claims only depend on which variant a
source is. -/
inductive DatabaseItemSource (Loc : Type) where
  | CppParser (include_file : String) (origin_location : Loc)
  | ImplicitDestructor
  | TemplateInstantiation
  | NamespaceInfering
  | QtSignalArguments
deriving DecidableEq

/-- `DatabaseItemSource::is_parser` (database.rs, lines 58-65); the Rust
name carries a suffix unusable as a Lean name here, hence the longer
name. -/
def DatabaseItemSource.is_parser_source {Loc : Type} : DatabaseItemSource Loc → Bool
  | .CppParser _ _ => true
  | _ => false

/-- `CppDatabaseItem` (database.rs, lines 376-384): one stored native
item.  The payload type `CppItemData` and the FFI item type `CppFfiItem`
dispatch into parser data structures that are not under `src/`; they are
the opaque type parameters `CppData` and `FfiItem`, and the structural
test `CppItemData::is_same` is passed to `add_cpp_data` as a function. -/
structure CppDatabaseItem (Loc CppData FfiItem : Type) where
  cpp_data : CppData
  source : DatabaseItemSource Loc
  ffi_items : List FfiItem
  is_cpp_ffi_processed : Bool
  is_rust_processed : Bool
deriving DecidableEq

/-- `Database` (database.rs, lines 392-400): all collected data of one
crate.  `RustDatabase` (rust_info.rs, not under `src/`) is the opaque
type parameter `RustDb`. -/
structure Database (Loc CppData FfiItem RustDb : Type) where
  crate_name : String
  crate_version : String
  cpp_items : List (CppDatabaseItem Loc CppData FfiItem)
  rust_database : RustDb
  environments : List CppCheckerEnv
deriving DecidableEq

/-- `Database::empty` (database.rs, lines 403-411).  Rust fills
`rust_database` with `Default::default()`; with `RustDb` opaque that
default value is passed explicitly. -/
def Database.empty {Loc CppData FfiItem RustDb : Type} (crate_name : String)
    (rust_default : RustDb) : Database Loc CppData FfiItem RustDb :=
  { crate_name := crate_name
    crate_version := "0.0.0"
    cpp_items := []
    rust_database := rust_default
    environments := [] }

/-- `Database::clear` (database.rs, lines 417-420): empties the native
item collection and the registered environments, and touches nothing
else. -/
def Database.clear {Loc CppData FfiItem RustDb : Type}
    (db : Database Loc CppData FfiItem RustDb) : Database Loc CppData FfiItem RustDb :=
  { db with cpp_items := [], environments := [] }

/-- The dedup search of `Database::add_cpp_data` (database.rs, lines
427-437): find the first stored item whose payload `is_same` as the
incoming data.  On a hit the stored item is kept except that a parser
source takes priority over a stored non-parser source; `none` means no
hit. -/
def addCppDataFind {Loc CppData FfiItem : Type} (is_same : CppData → CppData → Bool)
    (source : DatabaseItemSource Loc) (data : CppData) :
    List (CppDatabaseItem Loc CppData FfiItem) →
      Option (List (CppDatabaseItem Loc CppData FfiItem))
  | [] => none
  | item :: rest =>
    if is_same item.cpp_data data then
      some ((if source.is_parser_source && !item.source.is_parser_source then
          { item with source := source }
        else item) :: rest)
    else
      (addCppDataFind is_same source data rest).map (item :: ·)

/-- `Database::add_cpp_data` (database.rs, lines 426-446): dedups against
the stored items (with parser-source priority on a hit, returning
`false`), otherwise appends a fresh item (empty FFI list, both processed
flags false) and returns `true`. -/
def Database.add_cpp_data {Loc CppData FfiItem RustDb : Type}
    (db : Database Loc CppData FfiItem RustDb)
    (is_same : CppData → CppData → Bool) (source : DatabaseItemSource Loc)
    (data : CppData) : Database Loc CppData FfiItem RustDb × Bool :=
  match addCppDataFind is_same source data db.cpp_items with
  | some items2 => ({ db with cpp_items := items2 }, false)
  | none =>
    ({ db with
        cpp_items := db.cpp_items ++
          [{ cpp_data := data
             source := source
             ffi_items := []
             is_cpp_ffi_processed := false
             is_rust_processed := false }] }, true)

/- ============ lemmas for claims C7 and C8 ============ -/

theorem addCppDataFind_none {Loc CppData FfiItem : Type}
    (is_same : CppData → CppData → Bool) (source : DatabaseItemSource Loc)
    (data : CppData) :
    ∀ items : List (CppDatabaseItem Loc CppData FfiItem),
      (∀ item ∈ items, is_same item.cpp_data data = false) →
      addCppDataFind is_same source data items = none := by
  intro items
  induction items with
  | nil => intro _; rfl
  | cons x rest ih =>
    intro h
    rw [addCppDataFind, if_neg (by simp [h x (by simp)]),
      ih (fun i hi => h i (by simp [hi]))]
    rfl

theorem addCppDataFind_some {Loc CppData FfiItem : Type}
    (is_same : CppData → CppData → Bool) (source : DatabaseItemSource Loc)
    (data : CppData) :
    ∀ items : List (CppDatabaseItem Loc CppData FfiItem),
      (∃ item ∈ items, is_same item.cpp_data data = true) →
      ∃ items2, addCppDataFind is_same source data items = some items2 := by
  intro items
  induction items with
  | nil => rintro ⟨i, hi, _⟩; cases hi
  | cons x rest ih =>
    rintro ⟨i, hi, hsame⟩
    by_cases hx : is_same x.cpp_data data = true
    · exact ⟨_, by rw [addCppDataFind, if_pos hx]⟩
    · rcases List.mem_cons.mp hi with h1 | h2
      · rw [h1] at hsame; exact absurd hsame hx
      · obtain ⟨l2, hl2⟩ := ih ⟨i, h2, hsame⟩
        refine ⟨x :: l2, ?_⟩
        rw [addCppDataFind, if_neg hx, hl2]
        rfl

theorem addCppDataFind_rel {Loc CppData FfiItem : Type}
    (is_same : CppData → CppData → Bool) (source : DatabaseItemSource Loc)
    (data : CppData) :
    ∀ (items items2 : List (CppDatabaseItem Loc CppData FfiItem)),
      addCppDataFind is_same source data items = some items2 →
      List.Forall₂ (fun a b =>
        b.cpp_data = a.cpp_data ∧ b.ffi_items = a.ffi_items ∧
        b.is_cpp_ffi_processed = a.is_cpp_ffi_processed ∧
        b.is_rust_processed = a.is_rust_processed ∧
        (b.source = a.source ∨
          (source.is_parser_source = true ∧ a.source.is_parser_source = false ∧
            b.source = source))) items items2 := by
  intro items
  induction items with
  | nil => intro items2 h; simp [addCppDataFind] at h
  | cons x rest ih =>
    intro items2 h
    rw [addCppDataFind] at h
    by_cases hx : is_same x.cpp_data data = true
    · rw [if_pos hx] at h
      by_cases hcond : (source.is_parser_source && !x.source.is_parser_source) = true
      · rw [if_pos hcond] at h
        injection h with h2
        subst h2
        refine List.Forall₂.cons ?_
          (List.forall₂_same.mpr fun a _ => ⟨rfl, rfl, rfl, rfl, Or.inl rfl⟩)
        have h1 := (Bool.and_eq_true _ _).mp hcond
        exact ⟨rfl, rfl, rfl, rfl, Or.inr ⟨h1.1, by simpa using h1.2, rfl⟩⟩
      · rw [if_neg hcond] at h
        injection h with h2
        subst h2
        exact List.Forall₂.cons ⟨rfl, rfl, rfl, rfl, Or.inl rfl⟩
          (List.forall₂_same.mpr fun a _ => ⟨rfl, rfl, rfl, rfl, Or.inl rfl⟩)
    · rw [if_neg hx] at h
      obtain ⟨l2, hl2, heq⟩ := Option.map_eq_some'.mp h
      subst heq
      exact List.Forall₂.cons ⟨rfl, rfl, rfl, rfl, Or.inl rfl⟩ (ih l2 hl2)

theorem addCppDataFind_nonparser {Loc CppData FfiItem : Type}
    (is_same : CppData → CppData → Bool) (source : DatabaseItemSource Loc)
    (data : CppData) (hs : source.is_parser_source = false) :
    ∀ (items items2 : List (CppDatabaseItem Loc CppData FfiItem)),
      addCppDataFind is_same source data items = some items2 → items2 = items := by
  intro items
  induction items with
  | nil => intro items2 h; simp [addCppDataFind] at h
  | cons x rest ih =>
    intro items2 h
    rw [addCppDataFind] at h
    by_cases hx : is_same x.cpp_data data = true
    · rw [if_pos hx, hs] at h
      simp only [Bool.false_and, Bool.false_eq_true, if_false, Option.some.injEq] at h
      exact h.symm
    · rw [if_neg hx] at h
      obtain ⟨l2, hl2, heq⟩ := Option.map_eq_some'.mp h
      subst heq
      rw [ih l2 hl2]

/- ===================== claims C7, C8, C10 ===================== -/

/-- Claim C7 counterexample: with one stored item whose source is
`ImplicitDestructor`, re-inserting the structurally identical payload
with a parser source returns false (nothing inserted) but does NOT leave
the collection's content unchanged: the matched item's source field is
upgraded to the incoming parser source ("parser data takes priority"),
so the second insertion is not a no-op on the stored content. -/
theorem claim_c7_counterexample :
    ((Database.mk "c" "0.0.0"
        [CppDatabaseItem.mk 0 DatabaseItemSource.ImplicitDestructor [] false false]
        () [] : Database Unit Nat Unit Unit).add_cpp_data
        (fun a b => a == b) (DatabaseItemSource.CppParser "file.h" ()) 0).2 = false ∧
    ((Database.mk "c" "0.0.0"
        [CppDatabaseItem.mk 0 DatabaseItemSource.ImplicitDestructor [] false false]
        () [] : Database Unit Nat Unit Unit).add_cpp_data
        (fun a b => a == b) (DatabaseItemSource.CppParser "file.h" ()) 0).1 ≠
      Database.mk "c" "0.0.0"
        [CppDatabaseItem.mk 0 DatabaseItemSource.ImplicitDestructor [] false false]
        () [] :=
  ⟨rfl, by decide⟩

/-- Claim C7 (amended): inserting a payload structurally identical to a
stored one never errors and never inserts: the call returns false, the
collection keeps its length, and every stored item keeps its payload,
FFI list and flags; the only possible change is that the matched item's
stored non-parser source is replaced by the incoming parser source.
With a non-parser incoming source the database is entirely unchanged.
The crate name, version, Rust database and environments are untouched. -/
theorem claim_c7_dedup_no_insert {Loc CppData FfiItem RustDb : Type}
    (db : Database Loc CppData FfiItem RustDb)
    (is_same : CppData → CppData → Bool) (source : DatabaseItemSource Loc)
    (data : CppData)
    (h : ∃ item ∈ db.cpp_items, is_same item.cpp_data data = true) :
    (db.add_cpp_data is_same source data).2 = false ∧
    (db.add_cpp_data is_same source data).1.cpp_items.length = db.cpp_items.length ∧
    List.Forall₂ (fun a b =>
        b.cpp_data = a.cpp_data ∧ b.ffi_items = a.ffi_items ∧
        b.is_cpp_ffi_processed = a.is_cpp_ffi_processed ∧
        b.is_rust_processed = a.is_rust_processed ∧
        (b.source = a.source ∨
          (source.is_parser_source = true ∧ a.source.is_parser_source = false ∧
            b.source = source)))
      db.cpp_items (db.add_cpp_data is_same source data).1.cpp_items ∧
    (source.is_parser_source = false →
        db.add_cpp_data is_same source data = (db, false)) ∧
    (db.add_cpp_data is_same source data).1.crate_name = db.crate_name ∧
    (db.add_cpp_data is_same source data).1.crate_version = db.crate_version ∧
    (db.add_cpp_data is_same source data).1.rust_database = db.rust_database ∧
    (db.add_cpp_data is_same source data).1.environments = db.environments := by
  obtain ⟨items2, h2⟩ := addCppDataFind_some is_same source data db.cpp_items h
  have hrel := addCppDataFind_rel is_same source data db.cpp_items items2 h2
  have hdb : db.add_cpp_data is_same source data = ({ db with cpp_items := items2 }, false) := by
    rw [Database.add_cpp_data, h2]
  rw [hdb]
  refine ⟨rfl, hrel.length_eq.symm, hrel, ?_, rfl, rfl, rfl, rfl⟩
  intro hs
  rw [addCppDataFind_nonparser is_same source data hs db.cpp_items items2 h2]

theorem claim_c7_witness :
    (∃ item ∈ (Database.mk "c" "0.0.0"
        [CppDatabaseItem.mk 0 DatabaseItemSource.ImplicitDestructor [] false false]
        () [] : Database Unit Nat Unit Unit).cpp_items,
      (fun (a b : Nat) => a == b) item.cpp_data 0 = true) ∧
    (Database.mk "c" "0.0.0"
        [CppDatabaseItem.mk 0 DatabaseItemSource.ImplicitDestructor [] false false]
        () [] : Database Unit Nat Unit Unit).add_cpp_data
      (fun a b => a == b) DatabaseItemSource.TemplateInstantiation 0 =
    (Database.mk "c" "0.0.0"
        [CppDatabaseItem.mk 0 DatabaseItemSource.ImplicitDestructor [] false false]
        () [], false) :=
  ⟨by decide, (claim_c7_dedup_no_insert _ _ _ _ (by decide)).2.2.2.1 rfl⟩

/-- Claim C8 counterexample: this version of the store allocates no
identifiers at all.  `add_cpp_data` returns the boolean `true` rather
than a fresh identifier, the inserted item carries no identifier field,
and after `clear` the next insertion occupies the same head position 0
of the (position-ordered) collection that the previously inserted item
occupied — so no strictly-increasing, never-reused per-collection
identifier exists across clears. -/
theorem claim_c8_counterexample :
    ((Database.empty "c" () : Database Unit Nat Unit Unit).add_cpp_data
        (fun a b => a == b) DatabaseItemSource.ImplicitDestructor 0 =
      (Database.mk "c" "0.0.0"
        [CppDatabaseItem.mk 0 DatabaseItemSource.ImplicitDestructor [] false false] () [],
        true)) ∧
    (((Database.mk "c" "0.0.0"
        [CppDatabaseItem.mk 0 DatabaseItemSource.ImplicitDestructor [] false false] () [] :
          Database Unit Nat Unit Unit).clear).add_cpp_data
        (fun a b => a == b) DatabaseItemSource.ImplicitDestructor 1 =
      (Database.mk "c" "0.0.0"
        [CppDatabaseItem.mk 1 DatabaseItemSource.ImplicitDestructor [] false false] () [],
        true)) :=
  ⟨by decide, by decide⟩

/-- Claim C8 (amended): on a payload matching no stored item,
`add_cpp_data` appends the new item at the end of `cpp_items` — at
position `db.cpp_items.length`, strictly greater than the position of
every already-stored item — and returns `true`; on a dedup match it
returns `false` and the collection keeps its length.  No identifier is
allocated, and positions restart from zero after `Database::clear`. -/
theorem claim_c8_append_or_dedup {Loc CppData FfiItem RustDb : Type}
    (db : Database Loc CppData FfiItem RustDb)
    (is_same : CppData → CppData → Bool) (source : DatabaseItemSource Loc)
    (data : CppData) :
    ((∀ item ∈ db.cpp_items, is_same item.cpp_data data = false) →
      db.add_cpp_data is_same source data =
        ({ db with cpp_items := db.cpp_items ++
            [CppDatabaseItem.mk data source [] false false] }, true)) ∧
    ((∃ item ∈ db.cpp_items, is_same item.cpp_data data = true) →
      (db.add_cpp_data is_same source data).2 = false ∧
      (db.add_cpp_data is_same source data).1.cpp_items.length =
        db.cpp_items.length) := by
  constructor
  · intro h
    rw [Database.add_cpp_data, addCppDataFind_none is_same source data db.cpp_items h]
  · intro h
    obtain ⟨items2, h2⟩ := addCppDataFind_some is_same source data db.cpp_items h
    have hrel := addCppDataFind_rel is_same source data db.cpp_items items2 h2
    rw [Database.add_cpp_data, h2]
    exact ⟨rfl, hrel.length_eq.symm⟩

theorem claim_c8_witness :
    (∀ item ∈ (Database.empty "c" () : Database Unit Nat Unit Unit).cpp_items,
      (fun (a b : Nat) => a == b) item.cpp_data 5 = false) ∧
    (Database.empty "c" () : Database Unit Nat Unit Unit).add_cpp_data
        (fun a b => a == b) DatabaseItemSource.NamespaceInfering 5 =
      (Database.mk "c" "0.0.0"
        [CppDatabaseItem.mk 5 DatabaseItemSource.NamespaceInfering [] false false] () [],
        true) :=
  ⟨by decide, (claim_c8_append_or_dedup _ _ _ _).1 (by decide)⟩

/-- Claim C10: `Database::clear` removes every stored item and every
registered environment, while leaving the crate name, the crate version
and the Rust (surface-item) database unchanged — so clearing the native
collections does not preserve the environment registrations. -/
theorem claim_c10_clear_frame {Loc CppData FfiItem RustDb : Type}
    (db : Database Loc CppData FfiItem RustDb) :
    db.clear.cpp_items = [] ∧ db.clear.environments = [] ∧
    db.clear.crate_name = db.crate_name ∧
    db.clear.crate_version = db.crate_version ∧
    db.clear.rust_database = db.rust_database :=
  ⟨rfl, rfl, rfl, rfl, rfl⟩
